import Mathlib

/-!
Verification of the VUSD client application's treasury-valuation and swap
logic, shallowly embedded from `src/client/src/hooks/useTreasury.ts`,
`src/client/src/hooks/useSwap.ts` (the same hook also appears in
`src/client/src/store/web3Store.ts`), and the constants in
`src/client/src/constants/`.

Modelling conventions:
- JavaScript `number` arithmetic is modelled over `ℚ` (exact rationals),
  except where a claim is specifically about 64-bit float precision, where
  `Number(bigint)` conversion is modelled explicitly (`toFloat53`).
- On-chain `uint256` values are `ℕ`.
- `ethers.formatUnits(x, d)` is `x / 10^d` over `ℚ`.
- Asynchronous chain reads are oracles passed in as explicit arguments;
  a read that can throw is an `Except String` value.
- `console.error` logging is modelled by returning a list of log strings.
-/

namespace VusdApp

/-- A supported token entry, from `constants/tokens.ts` (`interface Token`). -/
structure Token where
  symbol : String
  name : String
  address : String
  decimals : ℕ
deriving DecidableEq, Repr

/-- The `SUPPORTED_TOKENS` registry from `constants/tokens.ts` (mainnet addresses). -/
def SUPPORTED_TOKENS : List Token :=
  [ ⟨"VUSD", "VUSD Stablecoin", "0x677ddbd918637E5F2c79e164D402454dE7dA8619", 18⟩,
    ⟨"USDC", "USD Coin", "0xA0b86991c6218b36c1d19D4a2e9Eb0cE3606eB48", 6⟩,
    ⟨"USDT", "Tether USD", "0xdAC17F958D2ee523a2206206994597C13D831ec7", 6⟩,
    ⟨"DAI", "Dai Stablecoin", "0x6B175474E89094C44Da98b954EedeAC495271d0F", 18⟩ ]

/-- `VUSD_ADDRESS` from `constants/contracts.ts`. -/
def VUSD_ADDRESS : String := "0x677ddbd918637E5F2c79e164D402454dE7dA8619"

/-- `MINTER_ADDRESS` from `constants/contracts.ts`. -/
def MINTER_ADDRESS : String := "0xFd22Bcf90d63748288913336Cd38BBC0e681e298"

/-- `REDEEMER_ADDRESS` from `constants/contracts.ts`. -/
def REDEEMER_ADDRESS : String := "0xA860fe124fDABD43672EAD85183daE6f2df0421d"

/-- `STABLECOIN_ADDRESSES.USDC` from `constants/treasuryAssets.ts`. -/
def STABLECOIN_ADDRESSES_USDC : String := "0xA0b86991c6218b36c1d19D4a2e9Eb0cE3606eB48"

/-- `STABLECOIN_ADDRESSES.USDT` from `constants/treasuryAssets.ts`. -/
def STABLECOIN_ADDRESSES_USDT : String := "0xdAC17F958D2ee523a2206206994597C13D831ec7"

/-- `STABLECOIN_ADDRESSES.DAI` from `constants/treasuryAssets.ts`. -/
def STABLECOIN_ADDRESSES_DAI : String := "0x6B175474E89094C44Da98b954EedeAC495271d0F"

/-- `enum AssetType` from `constants/treasuryAssets.ts`. -/
inductive AssetType where
  | STAKED_ETH
  | LP_TOKEN
  | GENERIC_ERC20
deriving DecidableEq, Repr

/-- A tier-2 asset entry, from `constants/treasuryAssets.ts` (`interface T2Asset`).
The `extraAbi` strings only select which chain functions exist; in the model
availability of those functions is part of the chain oracle, so `extraAbi`
is not carried. -/
structure T2Asset where
  address : String
  symbol : String
  name : String
  decimals : ℕ
  assetType : AssetType
deriving DecidableEq, Repr

/-- The `T2_ASSETS` list from `constants/treasuryAssets.ts`. -/
def T2_ASSETS : List T2Asset :=
  [ ⟨"0xae7ab96520DE3A18E5e111B5EaAb095312D7fE84", "stETH", "Lido Staked ETH", 18, .STAKED_ETH⟩,
    ⟨"0xb90047676cC13e68632c55cB5b7cBd8A4C5A0A8E", "VUSD/ETH LP", "SushiSwap VUSD/ETH LP", 18, .LP_TOKEN⟩,
    ⟨"0xBf97b59b0DFA5F6A27BfD861e661d6E22E6544de", "VUSD/USDC LP", "SushiSwap VUSD/USDC LP", 18, .LP_TOKEN⟩ ]

/-- `ethers.formatUnits(x, d)` followed by `parseFloat`: exact scaling over `ℚ`. -/
def formatUnits (x : ℕ) (d : ℕ) : ℚ := (x : ℚ) / 10 ^ d

/-- `ethers.parseUnits(amount.toString(), d)` modelled as exact scaling over `ℚ`. -/
def parseUnitsQ (amount : ℚ) (d : ℕ) : ℚ := amount * 10 ^ d

/-- ASCII lowercase of one character, as JavaScript `toLowerCase()` acts on
the ASCII range (the only range occurring in addresses and symbols here). -/
def charLower (c : Char) : Char :=
  if 65 ≤ c.toNat ∧ c.toNat ≤ 90 then Char.ofNat (c.toNat + 32) else c

/-- `String.prototype.toLowerCase()` over the ASCII range. -/
def strLower (s : String) : String := String.mk (s.data.map charLower)

/-- Number of halvings needed to bring `n` below `2^53`; fuelled recursion
(the first argument is fuel, always called with `fuel = n`, which suffices
since the halving count is at most `log2 n ≤ n`). -/
def shiftCount : ℕ → ℕ → ℕ
  | 0, _ => 0
  | fuel + 1, n => if n < 2 ^ 53 then 0 else shiftCount fuel (n / 2) + 1

/-- JavaScript `Number(bigint)` conversion: round-to-nearest, ties-to-even,
onto the 53-bit-significand grid (exact below `2^53`; the overflow of
binary64 to infinity above `2^1024` is outside the range relevant here). -/
def toFloat53 (n : ℕ) : ℕ :=
  let k := shiftCount n n
  if k = 0 then n
  else
    let q := n / 2 ^ k
    let r := n % 2 ^ k
    let half := 2 ^ (k - 1)
    if half < r ∨ (r = half ∧ q % 2 = 1) then (q + 1) * 2 ^ k else q * 2 ^ k

/-- The LP ownership-ratio computation of `valueLpTokenAsset`
(`useTreasury.ts` line 193): `Number(tokenBalance) / Number(totalSupply)`.
Each bigint is first converted to a 64-bit float (`toFloat53`); the quotient
itself is kept exact over `ℚ` (the further float rounding of the quotient
can only lose more precision, and plays no role in the results below). -/
def ownershipRatioComputed (tokenBalance totalSupply : ℕ) : ℚ :=
  (toFloat53 tokenBalance : ℚ) / (toFloat53 totalSupply : ℚ)

/-- Result record of the per-asset valuation functions in `useTreasury.ts`:
the returned `{ value, balance }` pair plus the `console.error` log lines
emitted on the way (the source logs as a side effect). -/
structure ValOut where
  value : ℚ
  balance : ℚ
  logs : List String
deriving DecidableEq, Repr

/-- On-chain state of a SushiSwap pair as read by `valueLpTokenAsset`:
results of `totalSupply()`, `getReserves()`, `token0()`, `token1()`. -/
structure LpState where
  totalSupply : ℕ
  reserve0 : ℕ
  reserve1 : ℕ
  token0 : String
  token1 : String
deriving DecidableEq, Repr

/-- `valueStakedEthAsset` from `useTreasury.ts` (lines 131-154).
`pooled` models the optional `getPooledEthByShares` call: `none` when the
function is absent from the contract, `some (.ok r)` when the call returns
`r`, `some (.error e)` when the call throws (the source then logs and keeps
the 1:1 default). -/
def valueStakedEthAsset (tokenBalance : ℕ) (ethPrice : ℚ) (decimals : ℕ)
    (pooled : Option (Except String ℕ)) : ValOut :=
  let balance := formatUnits tokenBalance decimals
  match pooled with
  | none => ⟨balance * ethPrice, balance, []⟩
  | some (.ok result) => ⟨formatUnits result 18 * ethPrice, balance, []⟩
  | some (.error e) =>
      ⟨balance * ethPrice, balance, ["Error getting stETH exchange rate: " ++ e]⟩

/-- `valueLpTokenAsset` from `useTreasury.ts` (lines 176-253).
`lp` models the guarded chain reads: `none` when the SushiSwap functions are
absent from the contract (default valuation, no log), `some (.error e)` when
one of the calls throws (the catch logs and keeps the default valuation),
`some (.ok s)` when all four reads succeed. -/
def valueLpTokenAsset (tokenBalance : ℕ) (ethPrice : ℚ) (decimals : ℕ)
    (lp : Option (Except String LpState)) : ValOut :=
  let balance := formatUnits tokenBalance decimals
  let defaultValue := balance * ethPrice / 2
  match lp with
  | none => ⟨defaultValue, balance, []⟩
  | some (.error e) =>
      ⟨defaultValue, balance, ["Error calculating LP token value: " ++ e]⟩
  | some (.ok s) =>
      let ownershipRatio := ownershipRatioComputed tokenBalance s.totalSupply
      let token0AddressLower := strLower s.token0
      let token1AddressLower := strLower s.token1
      let vusdAddressLower := strLower VUSD_ADDRESS
      let usdcAddressLower := strLower STABLECOIN_ADDRESSES_USDC
      let usdtAddressLower := strLower STABLECOIN_ADDRESSES_USDT
      let daiAddressLower := strLower STABLECOIN_ADDRESSES_DAI
      if token0AddressLower = vusdAddressLower ∨ token1AddressLower = vusdAddressLower then
        let otherTokenReserve :=
          if token0AddressLower = vusdAddressLower then s.reserve1 else s.reserve0
        let otherTokenAddress :=
          if token0AddressLower = vusdAddressLower then token1AddressLower else token0AddressLower
        let ownedOtherValue :=
          if otherTokenAddress = usdcAddressLower then
            formatUnits otherTokenReserve 6 * ownershipRatio
          else if otherTokenAddress = usdtAddressLower then
            formatUnits otherTokenReserve 6 * ownershipRatio
          else if otherTokenAddress = daiAddressLower then
            formatUnits otherTokenReserve 18 * ownershipRatio
          else
            formatUnits otherTokenReserve 18 * ownershipRatio * ethPrice
        ⟨ownedOtherValue, balance, []⟩
      else
        let reserve0Value := formatUnits s.reserve0 18 * ownershipRatio
        let reserve1Value := formatUnits s.reserve1 18 * ownershipRatio
        ⟨(reserve0Value + reserve1Value) * ethPrice / 2, balance, []⟩

/-- `valueGenericErc20Asset` from `useTreasury.ts` (lines 272-285):
placeholder valuation `balance * 10`. -/
def valueGenericErc20Asset (tokenBalance : ℕ) (decimals : ℕ) : ValOut :=
  let balance := formatUnits tokenBalance decimals
  ⟨balance * 10, balance, []⟩

/-- `interface TreasuryAsset` from `useTreasury.ts`. -/
structure TreasuryAsset where
  symbol : String
  name : String
  value : ℚ
  balance : ℚ
  address : String
deriving DecidableEq, Repr

/-- `interface TreasuryData` from `useTreasury.ts`. -/
structure TreasuryData where
  totalValue : ℚ
  t1Value : ℚ
  t2Value : ℚ
  circulatingSupply : ℚ
  collateralizationRatio : ℚ
  excessValue : ℚ
  t1Assets : List TreasuryAsset
  t2Assets : List TreasuryAsset
deriving DecidableEq, Repr

/-- Per-asset chain state consumed by the tier-2 loop of `fetchTreasuryData`:
the `balanceOf(treasury)` read (which can throw and then trips the loop's
catch), and the asset-specific optional reads forwarded to the valuation
functions. The provider-unavailable throw of the source loop is modelled as
a failing `balanceOf`. -/
structure T2AssetChain where
  balanceOf : Except String ℕ
  pooled : Option (Except String ℕ)
  lp : Option (Except String LpState)

/-- Result of a tier-1 pass of `fetchTreasuryData`: the `t1Assets` list and
the running `t1Value`. -/
structure T1Result where
  assets : List TreasuryAsset
  value : ℚ
deriving DecidableEq, Repr

/-- Result of the tier-2 loop of `fetchTreasuryData`: `t2Assets`, `t2Value`,
and the `console.error` lines emitted. -/
structure T2Result where
  assets : List TreasuryAsset
  value : ℚ
  logs : List String
deriving DecidableEq, Repr

/-- The tier-1 token lookup of `useTreasury.ts` line 330:
`SUPPORTED_TOKENS.find(t => t.address.toLowerCase() === tokenAddress.toLowerCase())`. -/
def findSupported (tokenAddress : String) : Option Token :=
  SUPPORTED_TOKENS.find? (fun t => strLower t.address == strLower tokenAddress)

/-- The tier-1 loop of `fetchTreasuryData` (`useTreasury.ts` lines 329-349):
for each whitelisted address with a registry match, push a holding valued
1:1 with its formatted withdrawable balance; addresses without a match are
skipped. -/
def processT1 (withdrawable : String → ℕ) : List String → T1Result
  | [] => ⟨[], 0⟩
  | tokenAddress :: rest =>
    let res := processT1 withdrawable rest
    match findSupported tokenAddress with
    | some token =>
        let balance := formatUnits (withdrawable tokenAddress) token.decimals
        ⟨⟨token.symbol, token.name, balance, balance, tokenAddress⟩ :: res.assets,
          balance + res.value⟩
    | none => res

/-- Whether the pattern matches at the head of the text. -/
def subAt : List Char → List Char → Bool
  | [], _ => true
  | _ :: _, [] => false
  | p :: ps, c :: cs => p == c && subAt ps cs

/-- Whether the pattern occurs contiguously anywhere in the text. -/
def hasSub (pat : List Char) : List Char → Bool
  | [] => pat.isEmpty
  | c :: cs => subAt pat (c :: cs) || hasSub pat cs

/-- Substring test used to model `t2Asset.symbol.includes('LP')`. -/
def containsSub (s sub : String) : Bool := hasSub sub.data s.data

/-- The development-mode placeholder values of `fetchTreasuryData`
(`useTreasury.ts` lines 431-441). -/
def placeholderValue (a : T2Asset) : ℚ :=
  if a.symbol = "stETH" then 64640
  else if a.symbol = "VUSD/ETH LP" then 4375
  else if a.symbol = "VUSD/USDC LP" then 1012
  else 0

/-- The development-mode placeholder holding pushed by `fetchTreasuryData`
(`useTreasury.ts` lines 443-449). -/
def placeholderAsset (a : T2Asset) : TreasuryAsset :=
  ⟨a.symbol, a.name, placeholderValue a,
    if containsSub a.symbol "LP" then 0 else placeholderValue a / 3500,
    a.address⟩

/-- The log line of `useTreasury.ts` line 426. -/
def errLog (a : T2Asset) (e : String) : String :=
  "Error fetching T2 asset " ++ a.symbol ++ ": " ++ e

/-- The body of one tier-2 loop iteration up to the valuation dispatch
(`useTreasury.ts` lines 356-411): read the treasury balance (any throw makes
the whole iteration fail into the catch), then dispatch on `assetType` to
the matching valuation function. -/
def fetchT2Asset (ethPrice : ℚ) (chain : T2Asset → T2AssetChain) (a : T2Asset) :
    Except String ValOut :=
  match (chain a).balanceOf with
  | .error e => .error e
  | .ok tokenBalance =>
    match a.assetType with
    | .STAKED_ETH => .ok (valueStakedEthAsset tokenBalance ethPrice a.decimals (chain a).pooled)
    | .LP_TOKEN => .ok (valueLpTokenAsset tokenBalance ethPrice a.decimals (chain a).lp)
    | .GENERIC_ERC20 => .ok (valueGenericErc20Asset tokenBalance a.decimals)

/-- The tier-2 loop of `fetchTreasuryData` (`useTreasury.ts` lines 355-454).
`isDev` is `process.env.NODE_ENV === 'development'`: on a per-asset failure
the source logs, and in development mode additionally pushes a placeholder
holding; otherwise the asset is skipped. -/
def processT2 (isDev : Bool) (ethPrice : ℚ) (chain : T2Asset → T2AssetChain) :
    List T2Asset → T2Result
  | [] => ⟨[], 0, []⟩
  | a :: rest =>
    let res := processT2 isDev ethPrice chain rest
    match fetchT2Asset ethPrice chain a with
    | .ok v =>
        ⟨⟨a.symbol, a.name, v.value, v.balance, a.address⟩ :: res.assets,
          v.value + res.value, v.logs ++ res.logs⟩
    | .error e =>
        if isDev then
          ⟨placeholderAsset a :: res.assets, placeholderValue a + res.value,
            errLog a e :: res.logs⟩
        else
          ⟨res.assets, res.value, errLog a e :: res.logs⟩

/-- The chain state read by one run of `fetchTreasuryData`: VUSD
`totalSupply()`, the treasury's `whitelistedTokens()` and `withdrawable`,
the ETH/USD price (already including the CoinGecko fallback of 3500), and
the per-tier-2-asset reads. -/
structure ChainOracle where
  vusdTotalSupply : ℕ
  whitelistedTokens : List String
  withdrawable : String → ℕ
  ethPrice : ℚ
  t2chain : T2Asset → T2AssetChain

/-- `fetchTreasuryData` from `useTreasury.ts` (lines 307-481), from the
point where both contracts are available: produces the `TreasuryData`
passed to `setTreasuryData` plus the tier-2 error log lines. -/
def fetchTreasuryData (isDev : Bool) (o : ChainOracle) : TreasuryData × List String :=
  let circulatingSupply := formatUnits o.vusdTotalSupply 18
  let t1 := processT1 o.withdrawable o.whitelistedTokens
  let t2 := processT2 isDev o.ethPrice o.t2chain T2_ASSETS
  let totalValue := t1.value + t2.value
  let collateralizationRatio := if circulatingSupply > 0 then totalValue / circulatingSupply else 0
  let excessValue := totalValue - circulatingSupply
  (⟨totalValue, t1.value, t2.value, circulatingSupply, collateralizationRatio,
     excessValue, t1.assets, t2.assets⟩, t2.logs)

/-- `type SwapDirection = 'toVUSD' | 'fromVUSD'` from `useSwap.ts`.
`toVUSD` is the mint path (Minter contract), `fromVUSD` the redeem path
(Redeemer contract). -/
inductive SwapDirection where
  | toVUSD
  | fromVUSD
deriving DecidableEq, Repr

/-- `getSwapDirection` from `useSwap.ts` (lines 65-67, and `web3Store.ts`
lines 218-220): `outputToken === 'VUSD' ? 'toVUSD' : 'fromVUSD'`. -/
def getSwapDirection (outputToken : String) : SwapDirection :=
  if outputToken = "VUSD" then .toVUSD else .fromVUSD

/-- `getTokenDecimals` from `useSwap.ts`: `token?.decimals || 18`
(JavaScript `||`, so a declared 0 would also fall back to 18). -/
def getTokenDecimals (symbol : String) : ℕ :=
  match SUPPORTED_TOKENS.find? (fun t => t.symbol == symbol) with
  | some token => if token.decimals = 0 then 18 else token.decimals
  | none => 18

/-- `getTokenAddress` from `useSwap.ts`: `token?.address || ''`. -/
def getTokenAddress (symbol : String) : String :=
  match SUPPORTED_TOKENS.find? (fun t => t.symbol == symbol) with
  | some token => token.address
  | none => ""

/-- The list of supported token symbols. -/
def supportedSymbols : List String := SUPPORTED_TOKENS.map Token.symbol

/-- A chain call issued by the swap estimator; arguments are the raw
amounts passed on the wire (over `ℚ` per the `parseUnitsQ` convention). -/
inductive EstimateCall where
  | calculateMintage (token : String) (amountIn : ℚ)
  | mintingFee
  | redeemable (token : String) (amountIn : ℚ)
  | redeemFee
deriving DecidableEq, Repr

/-- Responses of the minter/redeemer view functions consumed by
`estimateSwap` (uint256 results). -/
structure EstimateChain where
  calculateMintage : String → ℚ → ℕ
  mintingFee : ℕ
  redeemable : String → ℚ → ℕ
  redeemFee : ℕ

/-- Outcome of one `estimateSwap` run: the value passed to
`setOutputAmount`, the value passed to `setFee` (`none` when the fee state
is left untouched, as on the zero-amount early return), and the chain calls
issued. -/
structure EstimateResult where
  outputAmount : ℚ
  fee : Option ℚ
  calls : List EstimateCall
deriving DecidableEq, Repr

/-- `estimateSwap` from `useSwap.ts` (lines 96-140, and `web3Store.ts`
lines 287-347): the `!amount || amount <= 0` guard is `amount ≤ 0` over `ℚ`
(`!amount` catches `0` and `NaN`; `amount <= 0` the negatives), and on that
path the function returns a zero quote having issued no chain call. -/
def estimateSwap (chain : EstimateChain) (amount : ℚ) (fromToken toToken : String) :
    EstimateResult :=
  if amount ≤ 0 then ⟨0, none, []⟩
  else
    let direction : SwapDirection := if toToken = "VUSD" then .toVUSD else .fromVUSD
    match direction with
    | .toVUSD =>
        let fromTokenAddress := getTokenAddress fromToken
        let fromTokenDecimals := getTokenDecimals fromToken
        let amountIn := parseUnitsQ amount fromTokenDecimals
        let mintage := chain.calculateMintage fromTokenAddress amountIn
        let mintingFee := chain.mintingFee
        ⟨formatUnits mintage 18, some (formatUnits mintingFee 4 / 100),
          [.calculateMintage fromTokenAddress amountIn, .mintingFee]⟩
    | .fromVUSD =>
        let toTokenAddress := getTokenAddress toToken
        let amountIn := parseUnitsQ amount 18
        let redeemable := chain.redeemable toTokenAddress amountIn
        let toTokenDecimals := getTokenDecimals toToken
        let redeemFee := chain.redeemFee
        ⟨formatUnits redeemable toTokenDecimals, some (formatUnits redeemFee 4 / 100),
          [.redeemable toTokenAddress amountIn, .redeemFee]⟩

/-- A state-changing or view chain interaction issued by `executeSwap`
(`allowance` read, `approve`, `mint`, `redeem`), in issue order. The
post-transaction balance refresh is UI state and not modelled. -/
inductive ExecCall where
  | allowance (token spender : String)
  | approve (token spender : String)
  | mint (token : String) (amount : ℚ)
  | redeem (token : String) (amount : ℚ)
deriving DecidableEq, Repr

/-- Allowance state read by `executeSwap`: current allowance of the
connected address for (token, spender). -/
structure ExecChain where
  allowance : String → String → ℚ

/-- `executeSwap` from `useSwap.ts` (lines 148-213, and `web3Store.ts`
lines 378-444): returns the chain calls issued, and `.error` for the two
fail-fast throws (`!isConnected || !address`, then
`!inputAmount || inputAmount <= 0`, both before any chain interaction).
Transaction waits and the balance refresh are elided; a successful run
returns `.ok`. -/
def executeSwap (chain : ExecChain) (isConnected : Bool) (address : Option String)
    (inputAmount : ℚ) (inputToken outputToken : String) :
    List ExecCall × Except String Unit :=
  if isConnected = false ∨ address = none then
    ([], .error "Wallet not connected")
  else if inputAmount ≤ 0 then
    ([], .error "Invalid amount")
  else
    let direction := getSwapDirection outputToken
    let inputTokenAddress := getTokenAddress inputToken
    let outputTokenAddress := getTokenAddress outputToken
    match direction with
    | .toVUSD =>
        let amount := parseUnitsQ inputAmount (getTokenDecimals inputToken)
        let allowance := chain.allowance inputTokenAddress MINTER_ADDRESS
        let approveCalls : List ExecCall :=
          if allowance < amount then [.approve inputTokenAddress MINTER_ADDRESS] else []
        (ExecCall.allowance inputTokenAddress MINTER_ADDRESS ::
          (approveCalls ++ [.mint inputTokenAddress amount]), .ok ())
    | .fromVUSD =>
        let amount := parseUnitsQ inputAmount 18
        let allowance := chain.allowance VUSD_ADDRESS REDEEMER_ADDRESS
        let approveCalls : List ExecCall :=
          if allowance < amount then [.approve VUSD_ADDRESS REDEEMER_ADDRESS] else []
        (ExecCall.allowance VUSD_ADDRESS REDEEMER_ADDRESS ::
          (approveCalls ++ [.redeem outputTokenAddress amount]), .ok ())

/-- Spec-side valuation of a stablecoin-containing pool share, written from
the spec's words for comparison with `valueLpTokenAsset`: only the
counterpart (non-stablecoin) side is counted, scaled by the ownership
fraction; a counterpart matching a known stablecoin address is valued 1:1
USD at its own decimal precision, otherwise it is treated as an
ETH-equivalent token and scaled by the ETH/USD price. -/
def counterpartOnlySpec (s : LpState) (tokenBalance : ℕ) (ethPrice : ℚ) : ℚ :=
  let fraction := ownershipRatioComputed tokenBalance s.totalSupply
  let vusd := strLower VUSD_ADDRESS
  let otherReserve := if strLower s.token0 = vusd then s.reserve1 else s.reserve0
  let otherAddr := if strLower s.token0 = vusd then strLower s.token1 else strLower s.token0
  if otherAddr = strLower STABLECOIN_ADDRESSES_USDC ∨
      otherAddr = strLower STABLECOIN_ADDRESSES_USDT then
    (otherReserve : ℚ) / 10 ^ 6 * fraction
  else if otherAddr = strLower STABLECOIN_ADDRESSES_DAI then
    (otherReserve : ℚ) / 10 ^ 18 * fraction
  else
    (otherReserve : ℚ) / 10 ^ 18 * fraction * ethPrice

/-- Replace the reserve on the VUSD side of a pair (the side the code
identifies by address comparison); used to state that the VUSD-side reserve
contributes nothing to the returned value. -/
def setVusdSideReserve (s : LpState) (n : ℕ) : LpState :=
  if strLower s.token0 = strLower VUSD_ADDRESS then
    { s with reserve0 := n }
  else
    { s with reserve1 := n }

/-- A concrete VUSD/WETH pool state (VUSD on side 0). -/
def lpStateW : LpState :=
  ⟨1000000, 500, 700, VUSD_ADDRESS, "0xC02aaA39b223FE8D0A0e5C4F27eAD9083C756Cc2"⟩

/-- A concrete chain state with zero VUSD supply, an empty whitelist, and
every tier-2 read failing (in development mode the placeholders then give a
nonzero total treasury value). -/
def oracleZeroSupply : ChainOracle :=
  ⟨0, [], fun _ => 0, 3500, fun _ => ⟨Except.error "network error", none, none⟩⟩

/-- The tier-1 running value equals the sum of the values of the produced
tier-1 holdings. -/
theorem processT1_value_sum (wd : String → ℕ) (ws : List String) :
    (processT1 wd ws).value = ((processT1 wd ws).assets.map TreasuryAsset.value).sum := by
  induction ws with
  | nil => simp [processT1]
  | cons a rest ih =>
    cases hf : findSupported a with
    | none => simp [processT1, hf, ih]
    | some t => simp [processT1, hf, ih]

/-- The tier-2 running value equals the sum of the values of the produced
tier-2 holdings, in either environment mode. -/
theorem processT2_value_sum (isDev : Bool) (p : ℚ) (chain : T2Asset → T2AssetChain)
    (assets : List T2Asset) :
    (processT2 isDev p chain assets).value
      = ((processT2 isDev p chain assets).assets.map TreasuryAsset.value).sum := by
  induction assets with
  | nil => simp [processT2]
  | cons a rest ih =>
    cases hf : fetchT2Asset p chain a with
    | ok v => simp [processT2, hf, ih]
    | error e => cases isDev <;> simp [processT2, hf, ih, placeholderAsset]

/-- The tier-2 loop processes a concatenation independently piece by piece:
holdings, value, and logs all split accordingly. -/
theorem processT2_append (isDev : Bool) (p : ℚ) (chain : T2Asset → T2AssetChain)
    (xs ys : List T2Asset) :
    processT2 isDev p chain (xs ++ ys)
      = ⟨(processT2 isDev p chain xs).assets ++ (processT2 isDev p chain ys).assets,
          (processT2 isDev p chain xs).value + (processT2 isDev p chain ys).value,
          (processT2 isDev p chain xs).logs ++ (processT2 isDev p chain ys).logs⟩ := by
  induction xs with
  | nil => simp [processT2]
  | cons a rest ih =>
    cases hf : fetchT2Asset p chain a with
    | ok v => simp [processT2, hf, ih, add_assoc]
    | error e => cases isDev <;> simp [processT2, hf, ih, add_assoc]

/-- C3: in every report produced by the aggregator, `totalValue` equals the
exact sum of the `value` fields of all holdings in `t1Assets` plus all
holdings in `t2Assets`, with no further adjustment terms. -/
theorem c3_totalValue_is_sum_of_holdings (isDev : Bool) (o : ChainOracle) :
    (fetchTreasuryData isDev o).1.totalValue
      = (((fetchTreasuryData isDev o).1.t1Assets).map TreasuryAsset.value).sum
        + (((fetchTreasuryData isDev o).1.t2Assets).map TreasuryAsset.value).sum := by
  simp [fetchTreasuryData, processT1_value_sum, processT2_value_sum]

/-- C2 counterexample: a concrete chain state with circulating supply 0 on
which the aggregator's collateralization ratio is not 1 (it is 0), showing
the ratio-defaults-to-1 claim false on the code. -/
theorem c2_counterexample :
    (fetchTreasuryData true oracleZeroSupply).1.circulatingSupply = 0
    ∧ (fetchTreasuryData true oracleZeroSupply).1.totalValue = 70027
    ∧ (fetchTreasuryData true oracleZeroSupply).1.collateralizationRatio ≠ 1 := by
  refine ⟨?_, ?_, ?_⟩
  · simp [fetchTreasuryData, formatUnits, oracleZeroSupply]
  · simp [fetchTreasuryData, processT1, processT2, fetchT2Asset, oracleZeroSupply,
      T2_ASSETS, placeholderValue]
    norm_num
  · simp [fetchTreasuryData, formatUnits, oracleZeroSupply]

/-- C2 (amended): when the stablecoin's circulating supply is 0, the
aggregation returns a collateralization ratio of 0 (not a divide-by-zero),
for any total treasury value. -/
theorem c2_zero_supply_ratio_zero (isDev : Bool) (o : ChainOracle)
    (h : o.vusdTotalSupply = 0) :
    (fetchTreasuryData isDev o).1.collateralizationRatio = 0 := by
  simp [fetchTreasuryData, formatUnits, h]

/-- C2 witness: the amended claim at the concrete zero-supply chain state. -/
theorem c2_witness :
    oracleZeroSupply.vusdTotalSupply = 0
    ∧ (fetchTreasuryData true oracleZeroSupply).1.collateralizationRatio = 0 :=
  ⟨rfl, c2_zero_supply_ratio_zero true oracleZeroSupply rfl⟩

/-- C4: every whitelisted address with a registry match of declared decimals
`d` and raw withdrawable balance `b` yields a tier-1 holding valued exactly
`b / 10^d` (decimal scaling only; the computation takes no price input). -/
theorem c4_t1_decimal_scaling (wd : String → ℕ) (tokenAddress : String)
    (rest : List String) (token : Token)
    (h : findSupported tokenAddress = some token) :
    (processT1 wd (tokenAddress :: rest)).assets
      = ⟨token.symbol, token.name, (wd tokenAddress : ℚ) / 10 ^ token.decimals,
          (wd tokenAddress : ℚ) / 10 ^ token.decimals, tokenAddress⟩
        :: (processT1 wd rest).assets
    ∧ (processT1 wd (tokenAddress :: rest)).value
      = (wd tokenAddress : ℚ) / 10 ^ token.decimals + (processT1 wd rest).value := by
  exact ⟨by simp [processT1, h, formatUnits], by simp [processT1, h, formatUnits]⟩

/-- C4 witness: the USDC address with a withdrawable balance of 5000000 raw
units (6 decimals) is valued at exactly 5 USD. -/
theorem c4_witness :
    findSupported "0xA0b86991c6218b36c1d19D4a2e9Eb0cE3606eB48"
      = some ⟨"USDC", "USD Coin", "0xA0b86991c6218b36c1d19D4a2e9Eb0cE3606eB48", 6⟩
    ∧ (processT1 (fun _ => 5000000) ["0xA0b86991c6218b36c1d19D4a2e9Eb0cE3606eB48"]).value
      = ((5000000 : ℕ) : ℚ) / 10 ^ 6 + (processT1 (fun _ => 5000000) []).value :=
  ⟨by decide,
    (c4_t1_decimal_scaling (fun _ => 5000000) "0xA0b86991c6218b36c1d19D4a2e9Eb0cE3606eB48"
      [] ⟨"USDC", "USD Coin", "0xA0b86991c6218b36c1d19D4a2e9Eb0cE3606eB48", 6⟩ (by decide)).2⟩

/-- C5: for every supported input and output token symbol, the computed
swap direction is the mint path (`toVUSD`) exactly when the output token
symbol is the stablecoin symbol `VUSD`. -/
theorem c5_mint_path_iff_output_vusd (inputToken outputToken : String)
    (_hin : inputToken ∈ supportedSymbols) (_hout : outputToken ∈ supportedSymbols) :
    getSwapDirection outputToken = SwapDirection.toVUSD ↔ outputToken = "VUSD" := by
  by_cases h : outputToken = "VUSD" <;> simp [getSwapDirection, h]

/-- C5 witness: the equivalence at the supported pair (USDC, VUSD). -/
theorem c5_witness :
    ("USDC" ∈ supportedSymbols ∧ "VUSD" ∈ supportedSymbols)
    ∧ (getSwapDirection "VUSD" = SwapDirection.toVUSD ↔ "VUSD" = "VUSD") :=
  ⟨⟨by decide, by decide⟩, c5_mint_path_iff_output_vusd "USDC" "VUSD" (by decide) (by decide)⟩

/-- C6: the ownership-fraction computation of `valueLpTokenAsset`
(`Number(tokenBalance) / Number(totalSupply)`) truncates beyond the float53
safe-integer range: at total supply `2^54`, the balances `2^53 + 1` and
`2^53` produce the same computed fraction `1/2`, though their exact
fractions differ — the fraction is lost to float conversion. -/
theorem c6_ownership_fraction_truncated :
    ownershipRatioComputed (2 ^ 53 + 1) (2 ^ 54) = ownershipRatioComputed (2 ^ 53) (2 ^ 54)
    ∧ ownershipRatioComputed (2 ^ 53 + 1) (2 ^ 54) = 1 / 2
    ∧ ((2 ^ 53 + 1 : ℚ) / 2 ^ 54 ≠ 1 / 2) := by
  have h1 : toFloat53 9007199254740993 = 9007199254740992 := by decide
  have h2 : toFloat53 9007199254740992 = 9007199254740992 := by decide
  have h3 : toFloat53 18014398509481984 = 18014398509481984 := by decide
  refine ⟨?_, ?_, ?_⟩
  · simp [ownershipRatioComputed, h1, h2, h3]
  · simp [ownershipRatioComputed, h1, h3]
    norm_num
  · norm_num

/-- C7: a tier-2 asset whose valuation fails is logged and, outside
development mode, excluded from the holdings and the sum, while every other
asset is aggregated exactly as it would be without the failing one — the
failure never aborts the report. -/
theorem c7_single_t2_failure_never_aborts (p : ℚ) (chain : T2Asset → T2AssetChain)
    (a : T2Asset) (e : String) (xs ys : List T2Asset)
    (h : fetchT2Asset p chain a = .error e) :
    (processT2 false p chain (xs ++ a :: ys)).assets
      = (processT2 false p chain xs).assets ++ (processT2 false p chain ys).assets
    ∧ (processT2 false p chain (xs ++ a :: ys)).value
      = (processT2 false p chain xs).value + (processT2 false p chain ys).value
    ∧ (processT2 false p chain (xs ++ a :: ys)).logs
      = (processT2 false p chain xs).logs
        ++ errLog a e :: (processT2 false p chain ys).logs := by
  have hsingle : processT2 false p chain (a :: ys)
      = ⟨(processT2 false p chain ys).assets, (processT2 false p chain ys).value,
          errLog a e :: (processT2 false p chain ys).logs⟩ := by
    simp [processT2, h]
  have happ := processT2_append false p chain xs (a :: ys)
  rw [hsingle] at happ
  rw [happ]
  exact ⟨rfl, rfl, rfl⟩

/-- C7 witness: with every chain read failing, removing the stETH asset's
failure from the middle of the list changes neither holdings nor value, and
adds exactly one log line. -/
theorem c7_witness :
    fetchT2Asset 3500 (fun _ => ⟨Except.error "network error", none, none⟩)
        ⟨"0xae7ab96520DE3A18E5e111B5EaAb095312D7fE84", "stETH", "Lido Staked ETH", 18,
          .STAKED_ETH⟩ = .error "network error"
    ∧ (processT2 false 3500 (fun _ => ⟨Except.error "network error", none, none⟩)
        ([] ++ ⟨"0xae7ab96520DE3A18E5e111B5EaAb095312D7fE84", "stETH", "Lido Staked ETH", 18,
          .STAKED_ETH⟩ :: [])).value
      = (processT2 false 3500 (fun _ => ⟨Except.error "network error", none, none⟩) []).value
        + (processT2 false 3500 (fun _ => ⟨Except.error "network error", none, none⟩) []).value :=
  ⟨rfl,
    (c7_single_t2_failure_never_aborts 3500 (fun _ => ⟨Except.error "network error", none, none⟩)
      ⟨"0xae7ab96520DE3A18E5e111B5EaAb095312D7fE84", "stETH", "Lido Staked ETH", 18, .STAKED_ETH⟩
      "network error" [] [] rfl).2.1⟩

/-- C8: a zero or negative amount makes the estimator return a zero quote,
leave the fee state untouched, and issue no chain call. -/
theorem c8_invalid_amount_zero_quote (chain : EstimateChain) (amount : ℚ)
    (fromToken toToken : String) (h : amount ≤ 0) :
    estimateSwap chain amount fromToken toToken = ⟨0, none, []⟩ := by
  simp [estimateSwap, h]

/-- C8 witness: the zero quote at amount 0. -/
theorem c8_witness :
    (0 : ℚ) ≤ 0
    ∧ estimateSwap ⟨fun _ _ => 0, 0, fun _ _ => 0, 0⟩ 0 "USDC" "VUSD" = ⟨0, none, []⟩ :=
  ⟨le_refl 0, c8_invalid_amount_zero_quote ⟨fun _ _ => 0, 0, fun _ _ => 0, 0⟩ 0 "USDC" "VUSD"
    (le_refl 0)⟩

/-- C9: whenever the wallet is disconnected or the input amount is
non-positive, `executeSwap` rejects with an error having issued no chain
call. -/
theorem c9_fail_fast (chain : ExecChain) (isConnected : Bool) (address : Option String)
    (inputAmount : ℚ) (inputToken outputToken : String)
    (h : isConnected = false ∨ address = none ∨ inputAmount ≤ 0) :
    ∃ msg, executeSwap chain isConnected address inputAmount inputToken outputToken
      = ([], .error msg) := by
  by_cases hc : isConnected = false ∨ address = none
  · exact ⟨"Wallet not connected", by simp [executeSwap, hc]⟩
  · have ha : inputAmount ≤ 0 := by tauto
    push_neg at hc
    obtain ⟨hc1, hc2⟩ := hc
    refine ⟨"Invalid amount", ?_⟩
    simp [executeSwap, hc1, hc2, ha]

/-- C9 witness: rejection with a disconnected wallet. -/
theorem c9_witness :
    ((false = false ∨ (none : Option String) = none ∨ (1 : ℚ) ≤ 0))
    ∧ ∃ msg, executeSwap ⟨fun _ _ => 0⟩ false none 1 "USDC" "VUSD" = ([], .error msg) :=
  ⟨Or.inl rfl, c9_fail_fast ⟨fun _ _ => 0⟩ false none 1 "USDC" "VUSD" (Or.inl rfl)⟩

/-- C10: a whitelisted address with no case-insensitive match in the
supported-token registry is silently skipped: the whole aggregator output
(holdings, values, total, and logs) is identical to the output without that
address. -/
theorem c10_unmatched_token_skipped (tokenAddress : String)
    (h : findSupported tokenAddress = none) (isDev : Bool) (supply : ℕ)
    (ws : List String) (wd : String → ℕ) (p : ℚ) (t2c : T2Asset → T2AssetChain) :
    fetchTreasuryData isDev ⟨supply, tokenAddress :: ws, wd, p, t2c⟩
      = fetchTreasuryData isDev ⟨supply, ws, wd, p, t2c⟩ := by
  simp [fetchTreasuryData, processT1, h]

/-- C10 witness: an address outside the registry is skipped on a concrete
chain state. -/
theorem c10_witness :
    findSupported "0xDEADBEEF" = none
    ∧ fetchTreasuryData false
        ⟨10, "0xDEADBEEF" :: [], fun _ => 7, 3500,
          fun _ => ⟨Except.error "network error", none, none⟩⟩
      = fetchTreasuryData false
        ⟨10, [], fun _ => 7, 3500, fun _ => ⟨Except.error "network error", none, none⟩⟩ :=
  ⟨by decide,
    c10_unmatched_token_skipped "0xDEADBEEF" (by decide) false 10 [] (fun _ => 7) 3500
      (fun _ => ⟨Except.error "network error", none, none⟩)⟩

/-- C1: for a pool share whose pair includes VUSD (on either side, by
case-insensitive address comparison), `valueLpTokenAsset` returns exactly
the counterpart side's valuation scaled by the ownership fraction, and the
VUSD-side reserve contributes exactly zero: replacing it by any other
reserve leaves the returned value unchanged. -/
theorem c1_lp_vusd_pair_counts_counterpart_only (s : LpState) (tokenBalance : ℕ)
    (ethPrice : ℚ) (decimals : ℕ)
    (h : strLower s.token0 = strLower VUSD_ADDRESS
        ∨ strLower s.token1 = strLower VUSD_ADDRESS) :
    (valueLpTokenAsset tokenBalance ethPrice decimals (some (.ok s))).value
        = counterpartOnlySpec s tokenBalance ethPrice
    ∧ ∀ n, (valueLpTokenAsset tokenBalance ethPrice decimals
            (some (.ok (setVusdSideReserve s n)))).value
        = (valueLpTokenAsset tokenBalance ethPrice decimals (some (.ok s))).value := by
  have nvc : strLower VUSD_ADDRESS ≠ strLower STABLECOIN_ADDRESSES_USDC := by decide
  have nvt : strLower VUSD_ADDRESS ≠ strLower STABLECOIN_ADDRESSES_USDT := by decide
  have nvd : strLower VUSD_ADDRESS ≠ strLower STABLECOIN_ADDRESSES_DAI := by decide
  have nct : strLower STABLECOIN_ADDRESSES_USDC ≠ strLower STABLECOIN_ADDRESSES_USDT := by decide
  have ncd : strLower STABLECOIN_ADDRESSES_USDC ≠ strLower STABLECOIN_ADDRESSES_DAI := by decide
  have ntd : strLower STABLECOIN_ADDRESSES_USDT ≠ strLower STABLECOIN_ADDRESSES_DAI := by decide
  by_cases h0 : strLower s.token0 = strLower VUSD_ADDRESS
  · constructor
    · by_cases hA : strLower s.token1 = strLower STABLECOIN_ADDRESSES_USDC
      · simp [valueLpTokenAsset, counterpartOnlySpec, formatUnits, h0, hA,
          nvc, nvt, nvd, nct, ncd, ntd, nvc.symm, nvt.symm, nvd.symm, nct.symm, ncd.symm,
          ntd.symm]
      · by_cases hB : strLower s.token1 = strLower STABLECOIN_ADDRESSES_USDT
        · simp [valueLpTokenAsset, counterpartOnlySpec, formatUnits, h0, hA, hB,
            nvc, nvt, nvd, nct, ncd, ntd, nvc.symm, nvt.symm, nvd.symm, nct.symm, ncd.symm,
            ntd.symm]
        · by_cases hC : strLower s.token1 = strLower STABLECOIN_ADDRESSES_DAI
          · simp [valueLpTokenAsset, counterpartOnlySpec, formatUnits, h0, hA, hB, hC,
              nvc, nvt, nvd, nct, ncd, ntd, nvc.symm, nvt.symm, nvd.symm, nct.symm, ncd.symm,
              ntd.symm]
          · simp [valueLpTokenAsset, counterpartOnlySpec, formatUnits, h0, hA, hB, hC,
              nvc, nvt, nvd, nct, ncd, ntd, nvc.symm, nvt.symm, nvd.symm, nct.symm, ncd.symm,
              ntd.symm]
    · intro n
      simp [valueLpTokenAsset, setVusdSideReserve, h0]
  · have h1 : strLower s.token1 = strLower VUSD_ADDRESS := h.resolve_left h0
    constructor
    · by_cases hA : strLower s.token0 = strLower STABLECOIN_ADDRESSES_USDC
      · simp [valueLpTokenAsset, counterpartOnlySpec, formatUnits, h0, h1, hA,
          nvc, nvt, nvd, nct, ncd, ntd, nvc.symm, nvt.symm, nvd.symm, nct.symm, ncd.symm,
          ntd.symm]
      · by_cases hB : strLower s.token0 = strLower STABLECOIN_ADDRESSES_USDT
        · simp [valueLpTokenAsset, counterpartOnlySpec, formatUnits, h0, h1, hA, hB,
            nvc, nvt, nvd, nct, ncd, ntd, nvc.symm, nvt.symm, nvd.symm, nct.symm, ncd.symm,
            ntd.symm]
        · by_cases hC : strLower s.token0 = strLower STABLECOIN_ADDRESSES_DAI
          · simp [valueLpTokenAsset, counterpartOnlySpec, formatUnits, h0, h1, hA, hB, hC,
              nvc, nvt, nvd, nct, ncd, ntd, nvc.symm, nvt.symm, nvd.symm, nct.symm, ncd.symm,
              ntd.symm]
          · simp [valueLpTokenAsset, counterpartOnlySpec, formatUnits, h0, h1, hA, hB, hC,
              nvc, nvt, nvd, nct, ncd, ntd, nvc.symm, nvt.symm, nvd.symm, nct.symm, ncd.symm,
              ntd.symm]
    · intro n
      simp [valueLpTokenAsset, setVusdSideReserve, h0, h1]

/-- C1 witness: the concrete VUSD/WETH pool state, with the VUSD-side
reserve replaced by 999. -/
theorem c1_witness :
    (strLower lpStateW.token0 = strLower VUSD_ADDRESS
      ∨ strLower lpStateW.token1 = strLower VUSD_ADDRESS)
    ∧ (valueLpTokenAsset 100 3500 18 (some (.ok lpStateW))).value
        = counterpartOnlySpec lpStateW 100 3500
    ∧ (valueLpTokenAsset 100 3500 18 (some (.ok (setVusdSideReserve lpStateW 999)))).value
        = (valueLpTokenAsset 100 3500 18 (some (.ok lpStateW))).value :=
  ⟨Or.inl rfl,
    (c1_lp_vusd_pair_counts_counterpart_only lpStateW 100 3500 18 (Or.inl rfl)).1,
    (c1_lp_vusd_pair_counts_counterpart_only lpStateW 100 3500 18 (Or.inl rfl)).2 999⟩

end VusdApp
